import Mathlib

/-!
# Verification of `colour-maya` (`plots.py`)

A shallow embedding of the single module `plots.py` of the `colour-maya`
repository, together with theorems settling the behavioural claims made by
its specification.

The module is glue code around two external collaborators:

* the `colour` colour-science library (`RGB_to_XYZ`, `XYZ_to_Lab`,
  `ILLUMINANTS`, plus `numpy`'s `array`/`ravel` and Python's `tuple`), and
* the Autodesk Maya scripting surface (`maya.cmds` and `maya.OpenMaya`).

Both collaborators are modelled abstractly: the colour library as a record
of uninterpreted functions (`ColourScience`), and the Maya host as a record
of oracles giving, for each host API call, either a result or a raised
exception (`Host`).  The module's procedures are embedded as functions into
a writer-plus-exception structure `MayaM` that records the sequence of host
API calls a run issues alongside its `Except` outcome, so that claims about
*which* host calls are made, in *which* order, with *which* arguments, and
how host exceptions propagate, become provable statements.

Numeric scalars flowing through the Maya-facing code are modelled as `ℚ`
(the literals occurring in the source — `.5`, `1`, `180`, `90` — are exact
binary floats, so no floating-point subtlety is lost for the claims at
hand).
-/

namespace ColourMaya

/-! ## The external colour-science library (abstract)

`S` is the scalar type, `V` the library's array-value type (numpy arrays),
`W` the whitepoint type, `M` the RGB→XYZ matrix type, `F` the transfer
function type, `I` the illuminant type. -/

/-- Abstract model of the external `colour` library functions and `numpy`
helpers used by `plots.py`.  `ILLUMINANTS` models the two-level dictionary
lookup `ILLUMINANTS.get(observer).get(illuminant)`; `toTriple` models
Python's `tuple(...)` applied to a flattened three-component array. -/
structure ColourScience (S V W M F I : Type) where
  np_array : S × S × S → V
  RGB_to_XYZ : V → W → I → M → String → F → V
  XYZ_to_Lab : V → W → V
  ILLUMINANTS : String → String → I
  np_ravel : V → V
  toTriple : V → S × S × S

/-- Model of the `colour` library's `RGB_Colourspace` objects, restricted to
the four attributes `plots.py` reads: `name`, `whitepoint`, `to_XYZ` and
`inverse_transfer_function`. -/
structure RGB_Colourspace (W M F : Type) where
  name : String
  whitepoint : W
  to_XYZ : M
  inverse_transfer_function : F

variable {S V W M F I : Type}

/-- Embedding of `plots.RGB_to_Lab` (source lines 131–156):
`XYZ_to_Lab(RGB_to_XYZ(np.array(RGB), colourspace.whitepoint,
ILLUMINANTS.get('CIE 1931 2 Degree Standard Observer').get('E'),
colourspace.to_XYZ, 'Bradford', colourspace.inverse_transfer_function),
colourspace.whitepoint)`. -/
def RGB_to_Lab (lib : ColourScience S V W M F I) (RGB : S × S × S)
    (colourspace : RGB_Colourspace W M F) : V :=
  lib.XYZ_to_Lab
    (lib.RGB_to_XYZ (lib.np_array RGB)
      colourspace.whitepoint
      (lib.ILLUMINANTS "CIE 1931 2 Degree Standard Observer" "E")
      colourspace.to_XYZ
      "Bradford"
      colourspace.inverse_transfer_function)
    colourspace.whitepoint

/-- The specification's description of `RGB_to_Lab`, written independently
from the spec's words: the order-preserving composition of the external
library's RGB→XYZ transform (at the colourspace's whitepoint, the E
illuminant of the CIE 1931 2 Degree Standard Observer, the colourspace's
`to_XYZ` matrix, Bradford adaptation and the colourspace's inverse transfer
function) followed by its XYZ→Lab transform with the colourspace's
whitepoint as the Lab reference white. -/
def RGB_to_Lab_specSide (lib : ColourScience S V W M F I) (RGB : S × S × S)
    (colourspace : RGB_Colourspace W M F) : V :=
  let XYZ := lib.RGB_to_XYZ (lib.np_array RGB) colourspace.whitepoint
    (lib.ILLUMINANTS "CIE 1931 2 Degree Standard Observer" "E")
    colourspace.to_XYZ "Bradford" colourspace.inverse_transfer_function
  lib.XYZ_to_Lab XYZ colourspace.whitepoint

/-- A concrete instantiation of the library model, for witnesses. -/
def testLib : ColourScience ℚ (ℚ × ℚ × ℚ) (ℚ × ℚ) Unit Unit Unit where
  np_array := fun p => p
  RGB_to_XYZ := fun v _ _ _ _ _ => (v.1 + 1, v.2.1, v.2.2)
  XYZ_to_Lab := fun v w => (v.1 * w.1, v.2.1, v.2.2)
  ILLUMINANTS := fun _ _ => ()
  np_ravel := fun v => v
  toTriple := fun v => v

/-- A concrete colourspace over the test library's types. -/
def testColourspace : RGB_Colourspace (ℚ × ℚ) Unit Unit where
  name := "sRGB"
  whitepoint := (3, 1)
  to_XYZ := ()
  inverse_transfer_function := ()

/-- A second concrete colourspace: same whitepoint, matrix and inverse
transfer function as `testColourspace`, different name. -/
def testColourspace' : RGB_Colourspace (ℚ × ℚ) Unit Unit where
  name := "other"
  whitepoint := (3, 1)
  to_XYZ := ()
  inverse_transfer_function := ()

/-! ## The Maya host (abstract) and the call-trace model

`E` is the type of exceptions the host API may raise, `D` the type of
`MDagPath` handles.  A run of an embedded procedure yields the list of host
API calls it issued, in order, together with an `Except` outcome.  Errors
are either host exceptions (propagated unmodified, wrapped by the injective
constructor `Err.host`) or Python-level `IndexError`s from `[0]` indexing
on a host-returned list. -/

/-- Values passed to `cmds.setAttr`: the module passes floats/ints
(`.5`, `180`, `90`, translation values) and booleans (`True`). -/
inductive AttrValue where
  | num (q : ℚ)
  | bool (b : Bool)
  deriving DecidableEq, Repr

/-- `OpenMaya.MSpace` constants used by the module. -/
inductive MSpace where
  | kObject
  | kWorld
  deriving DecidableEq, Repr

/-- `OpenMaya.MPoint`, as built by `get_mpoint`. -/
structure MPoint (S : Type) where
  x : S
  y : S
  z : S
  deriving DecidableEq, Repr

/-- One host API call, with its arguments, as issued by the module.
`getDagPath nodes i` records `MSelectionList` population with `nodes`
followed by `getDagPath(i, ...)`; `getPoints`/`setVertexColors` record the
`MFnMesh` operations on a DAG path; `itVertexPositions` records the
`MItMeshVertex` traversal reading object-space positions, and
`setVertexPosition` one `setPosition` on the vertex at the given iterator
index. -/
inductive MayaCall (D : Type) where
  | polyCube (w h d : ℚ) (sx sy sz : ℕ) (ch : Bool)
  | setAttr (attrName : String) (value : AttrValue)
  | listRelatives (object : String) (fullPath shapes noIntermediate : Bool)
  | getDagPath (nodes : List String) (index : ℕ)
  | getPoints (path : D) (space : MSpace)
  | setVertexColors (path : D) (colours : List (ℚ × ℚ × ℚ)) (indices : List ℕ)
  | makeIdentity (node : String) (apply t r s : Bool)
  | xformPivots (node : String) (rotatePivot scalePivot : ℚ × ℚ × ℚ)
  | rename (node : String) (newName : String)
  | itVertexPositions (path : D) (space : MSpace)
  | setVertexPosition (path : D) (index : ℕ) (p : MPoint ℚ)
  | createNode (nodeType : String)
  | select (nodes : List String)
  | deleteSelected
  | delete (nodes : Option (List String))
  | nurbsToPolygonsPref (polyType : ℕ) (chordHeightRatio : ℚ)
  | textCurves (font : String) (text : String)
  | listRelativesDefault (object : String)
  | listRelativesParent (objects : List String)
  | planarSrf (curve : String) (ch o : Bool) (po : ℕ)
  | polyUnite (surfaces : List (List String)) (ch : Bool)
  | xformCenterPivots (node : String)
  | xformTranslation (node : String) (translation : ℚ × ℚ × ℚ)
      (absolute : Bool)
  | polyColorPerVertex (rgb : ℚ × ℚ × ℚ) (cdo : Bool)
  | parent (child : String) (group : String)
  deriving DecidableEq, Repr

/-- An error during a run: a host exception (carried unmodified), a Python
`IndexError` raised by the module's own `[0]` indexing, or a Python
`TypeError` raised by iterating a `None` host result. -/
inductive Err (E : Type) where
  | host (e : E)
  | indexError
  | typeError
  deriving DecidableEq, Repr

/-- The Maya host, as an oracle: for every API call the module issues, the
response the host gives (a value, or a raised exception). -/
structure Host (E D : Type) where
  polyCube : ℚ → ℚ → ℚ → ℕ → ℕ → ℕ → Bool → Except E (List String)
  setAttr : String → AttrValue → Except E Unit
  listRelatives : String → Bool → Bool → Bool → Except E (Option (List String))
  getDagPath : List String → ℕ → Except E D
  getPoints : D → MSpace → Except E (List (ℚ × ℚ × ℚ))
  setVertexColors : D → List (ℚ × ℚ × ℚ) → List ℕ → Except E Unit
  makeIdentity : String → Bool → Bool → Bool → Bool → Except E Unit
  xformPivots : String → ℚ × ℚ × ℚ → ℚ × ℚ × ℚ → Except E Unit
  rename : String → String → Except E String
  itVertexPositions : D → MSpace → Except E (List (ℚ × ℚ × ℚ))
  setVertexPosition : D → ℕ → MPoint ℚ → Except E Unit
  createNode : String → Except E String
  select : List String → Except E Unit
  deleteSelected : Except E Unit
  delete : Option (List String) → Except E Unit
  nurbsToPolygonsPref : ℕ → ℚ → Except E Unit
  textCurves : String → String → Except E (List String)
  listRelativesDefault : String → Except E (Option (List String))
  listRelativesParent : List String → Except E (Option (List String))
  planarSrf : String → Bool → Bool → ℕ → Except E (List String)
  polyUnite : List (List String) → Bool → Except E (List String)
  xformCenterPivots : String → Except E Unit
  xformTranslation : String → ℚ × ℚ × ℚ → Bool → Except E Unit
  polyColorPerVertex : ℚ × ℚ × ℚ → Bool → Except E Unit
  parent : String → String → Except E Unit

/-- A run's result: the host calls issued, in order, and the outcome. -/
def MayaM (E D α : Type) : Type := List (MayaCall D) × Except (Err E) α

namespace MayaM

variable {E D α β : Type}

/-- Return a value, issuing no host call. -/
def pureM (a : α) : MayaM E D α := ([], Except.ok a)

/-- Sequencing: if the first step raised, the run aborts with that error
and the calls issued so far; otherwise the second step's calls follow the
first's. -/
def mbind (x : MayaM E D α) (f : α → MayaM E D β) : MayaM E D β :=
  match x with
  | (tr, Except.error e) => (tr, Except.error e)
  | (tr, Except.ok a) => (tr ++ (f a).1, (f a).2)

instance : Monad (MayaM E D) where
  pure := pureM
  bind := mbind

/-- Issue one host API call: it is recorded in the trace, and a host
exception becomes the run's outcome, unmodified. -/
def hostCall (c : MayaCall D) (r : Except E α) : MayaM E D α :=
  ([c], match r with
        | Except.ok a => Except.ok a
        | Except.error e => Except.error (Err.host e))

/-- Python list indexing `xs[i]`: raises `IndexError` when out of range.
No host call is involved. -/
def pyIndex (xs : List α) (i : ℕ) : MayaM E D α :=
  ([], match xs.get? i with
       | some a => Except.ok a
       | none => Except.error Err.indexError)

/-- Python iteration over a host result that is either a list or `None`
(as in `[... for x in curves]`): iterating `None` raises `TypeError`.
No host call is involved. -/
def pyIterate (xs : Option (List α)) : MayaM E D (List α) :=
  ([], match xs with
       | some l => Except.ok l
       | none => Except.error Err.typeError)

end MayaM

open MayaM

variable {E D : Type} {S V W M F I : Type}

/-! ## The embedded module functions -/

/-- Embedding of the module-load-time import guard (source lines 15–19):
`try: import maya.cmds ...; import maya.OpenMaya ... except ImportError as
error: pass`.  `r` is the outcome of executing the import statements; the
guard swallows exactly those exceptions that are `ImportError`s. -/
structure PyException where
  isImportError : Bool
  message : String
  deriving DecidableEq, Repr

/-- The import guard: on `ImportError` the handler body is `pass` (the
module loads); any other exception is not caught and propagates. -/
def module_import_guard (r : Except PyException Unit) : Except PyException Unit :=
  match r with
  | Except.ok _ => Except.ok ()
  | Except.error e => if e.isImportError then Except.ok () else Except.error e

/-- Embedding of `plots.get_dag_path` (source lines 41–60): build an
`MSelectionList`, `add(node)`, and return the DAG path at index 0. -/
def get_dag_path (host : Host E D) (node : String) : MayaM E D D :=
  hostCall (MayaCall.getDagPath [node] 0) (host.getDagPath [node] 0)

/-- Embedding of `plots.get_mpoint` (source lines 63–78):
`OpenMaya.MPoint(point[0], point[1], point[2])`. -/
def get_mpoint (point : S × S × S) : MPoint S :=
  ⟨point.1, point.2.1, point.2.2⟩

/-- Embedding of `plots.get_shapes` (source lines 81–108): call
`cmds.listRelatives(object, fullPath=full_path, shapes=True,
noIntermediate=no_intermediate)`; if the result is not `None` return it,
else return the initial empty list.  In the Python signature `full_path`
defaults to `False` and `no_intermediate` to `True`. -/
def get_shapes (host : Host E D) (object : String)
    (full_path no_intermediate : Bool) : MayaM E D (List String) :=
  mbind
    (hostCall (MayaCall.listRelatives object full_path true no_intermediate)
      (host.listRelatives object full_path true no_intermediate))
    (fun shapes =>
      match shapes with
      | some s => pureM s
      | none => pureM [])

/-- Embedding of `plots.set_attributes` (source lines 111–128): iterate the
mapping's entries, calling `cmds.setAttr(attribute, value)` for each, then
return `True`. -/
def set_attributes (host : Host E D) :
    List (String × AttrValue) → MayaM E D Bool
  | [] => pureM true
  | (a, v) :: rest =>
      mbind (hostCall (MayaCall.setAttr a v) (host.setAttr a v))
        (fun _ => set_attributes host rest)

/-- The vertex-colour loop of `RGB_identity_cube` (source lines 193–197):
`for i in range(point_array.length()): vertex_colour_array.append(
point_array[i][0], point_array[i][1], point_array[i][2]);
vertex_index_array.append(i)`.  Returns the two arrays built. -/
def buildVertexArrays (point_array : List (ℚ × ℚ × ℚ)) :
    List (ℚ × ℚ × ℚ) × List ℕ :=
  (List.range point_array.length).foldl
    (fun acc i =>
      let p := point_array.getD i (0, 0, 0)
      (acc.1 ++ [(p.1, p.2.1, p.2.2)], acc.2 ++ [i]))
    ([], [])

/-- Embedding of `plots.RGB_identity_cube` (source lines 159–202): create a
unit poly-cube with the given density, translate it by (.5,.5,.5) via
`set_attributes`, enable `displayColors`, fetch the shape's mesh via
`get_shapes`/`get_dag_path`, read its world-space points, set each vertex's
colour to its own position, freeze the transform, reset the pivots, and
rename the cube to `name`. -/
def RGB_identity_cube (host : Host E D) (name : String) (density : ℕ) :
    MayaM E D String := do
  let cubeList ← hostCall
    (MayaCall.polyCube 1 1 1 density density density false)
    (host.polyCube 1 1 1 density density density false)
  let cube ← pyIndex cubeList 0
  let _ ← set_attributes host
    [(cube ++ ".translateX", AttrValue.num (1/2)),
     (cube ++ ".translateY", AttrValue.num (1/2)),
     (cube ++ ".translateZ", AttrValue.num (1/2))]
  let _ ← hostCall
    (MayaCall.setAttr (cube ++ ".displayColors") (AttrValue.bool true))
    (host.setAttr (cube ++ ".displayColors") (AttrValue.bool true))
  let shapes ← get_shapes host cube false true
  let shape ← pyIndex shapes 0
  let path ← get_dag_path host shape
  let point_array ← hostCall (MayaCall.getPoints path MSpace.kWorld)
    (host.getPoints path MSpace.kWorld)
  let arrays := buildVertexArrays point_array
  let _ ← hostCall (MayaCall.setVertexColors path arrays.1 arrays.2)
    (host.setVertexColors path arrays.1 arrays.2)
  let _ ← hostCall (MayaCall.makeIdentity cube true true true true)
    (host.makeIdentity cube true true true true)
  let _ ← hostCall (MayaCall.xformPivots cube (0, 0, 0) (0, 0, 0))
    (host.xformPivots cube (0, 0, 0) (0, 0, 0))
  hostCall (MayaCall.rename cube name) (host.rename cube name)

/-- The vertex-deformation loop of `Lab_colourspace_cube` (source lines
224–231): while the `MItMeshVertex` iterator is not done, read the current
vertex's object-space position, set its position to
`get_mpoint(tuple(np.ravel(RGB_to_Lab((position[0], position[1],
position[2]), colourspace))))`, and advance.  `positions` is the sequence
of object-space positions the iterator yields and `i` the current iterator
index. -/
def vertexDeformLoop (host : Host E D) (lib : ColourScience ℚ V W M F I)
    (colourspace : RGB_Colourspace W M F) (path : D) :
    List (ℚ × ℚ × ℚ) → ℕ → MayaM E D Unit
  | [], _ => pureM ()
  | position :: rest, i =>
      let p := get_mpoint
        (lib.toTriple (lib.np_ravel (RGB_to_Lab lib
          (position.1, position.2.1, position.2.2) colourspace)))
      mbind (hostCall (MayaCall.setVertexPosition path i p)
          (host.setVertexPosition path i p))
        (fun _ => vertexDeformLoop host lib colourspace path rest (i + 1))

/-- Embedding of `plots.Lab_colourspace_cube` (source lines 205–235):
create an RGB identity cube named after the colourspace, deform each of its
vertices into Lab space via `RGB_to_Lab`, rotate 180° about X and 90° about
Z via `set_attributes`, freeze the transform, and return the cube. -/
def Lab_colourspace_cube (host : Host E D) (lib : ColourScience ℚ V W M F I)
    (colourspace : RGB_Colourspace W M F) (density : ℕ) :
    MayaM E D String := do
  let cube ← RGB_identity_cube host colourspace.name density
  let path ← get_dag_path host cube
  let positions ← hostCall (MayaCall.itVertexPositions path MSpace.kObject)
    (host.itVertexPositions path MSpace.kObject)
  let _ ← vertexDeformLoop host lib colourspace path positions 0
  let _ ← set_attributes host
    [(cube ++ ".rotateX", AttrValue.num 180),
     (cube ++ ".rotateZ", AttrValue.num 90)]
  let _ ← hostCall (MayaCall.makeIdentity cube true true true true)
    (host.makeIdentity cube true true true true)
  pureM cube

/-- The list comprehension of `Lab_coordinates_system_representation`
(source lines 267–271): one `cmds.planarSrf(x, ch=False, o=True, po=1)`
call per curve, collecting the returned node lists in order. -/
def planarSrfLoop (host : Host E D) :
    List String → MayaM E D (List (List String))
  | [] => pureM []
  | x :: rest =>
      mbind (hostCall (MayaCall.planarSrf x false true 1)
          (host.planarSrf x false true 1))
        (fun s => mbind (planarSrfLoop host rest)
          (fun ss => pureM (s :: ss)))

/-- The body of the label loop of `Lab_coordinates_system_representation`
(source lines 261–289), once per `(label, position, name)` triple: build
text curves, planar surfaces and a united mesh for the label, centre it,
colour it black, place it via `set_attributes` (the source's dict literal
names `scaleY` twice, so the dict holds seven entries), delete the text
curves' parent, freeze, rename and parent it under `group`.  Note the
`cmds.makeIdentity(cube, ...)` inside the loop refreezes the *outer* grid
cube, exactly as the source does. -/
def labelLoop (host : Host E D) (group cube : String) :
    List (String × (ℚ × ℚ) × String) → MayaM E D Unit
  | [] => pureM ()
  | (label, position, name) :: rest => do
      let textCurvesList ← hostCall
        (MayaCall.textCurves "Arial Black Bold" label)
        (host.textCurves "Arial Black Bold" label)
      let textCurvesRoot ← pyIndex textCurvesList 0
      let curvesOpt ← hostCall (MayaCall.listRelativesDefault textCurvesRoot)
        (host.listRelativesDefault textCurvesRoot)
      let curves ← pyIterate curvesOpt
      let srfs ← planarSrfLoop host curves
      let united ← hostCall (MayaCall.polyUnite srfs false)
        (host.polyUnite srfs false)
      let mesh ← pyIndex united 0
      let _ ← hostCall (MayaCall.xformCenterPivots mesh)
        (host.xformCenterPivots mesh)
      let _ ← hostCall (MayaCall.xformTranslation mesh (0, 0, 0) true)
        (host.xformTranslation mesh (0, 0, 0) true)
      let _ ← hostCall (MayaCall.makeIdentity cube true true true true)
        (host.makeIdentity cube true true true true)
      let _ ← hostCall (MayaCall.select [mesh]) (host.select [mesh])
      let _ ← hostCall (MayaCall.polyColorPerVertex (0, 0, 0) true)
        (host.polyColorPerVertex (0, 0, 0) true)
      let _ ← set_attributes host
        [(mesh ++ ".translateX", AttrValue.num position.1),
         (mesh ++ ".translateZ", AttrValue.num position.2),
         (mesh ++ ".rotateX", AttrValue.num (-90)),
         (mesh ++ ".scaleX", AttrValue.num 50),
         (mesh ++ ".scaleY", AttrValue.num 50),
         (mesh ++ ".overrideEnabled", AttrValue.bool true),
         (mesh ++ ".overrideDisplayType", AttrValue.num 2)]
      let curvesParent ← hostCall (MayaCall.listRelativesParent curves)
        (host.listRelativesParent curves)
      let _ ← hostCall (MayaCall.delete curvesParent)
        (host.delete curvesParent)
      let _ ← hostCall (MayaCall.makeIdentity mesh true true true true)
        (host.makeIdentity mesh true true true true)
      let renamedMesh ← hostCall (MayaCall.rename mesh name)
        (host.rename mesh name)
      let _ ← hostCall (MayaCall.parent renamedMesh group)
        (host.parent renamedMesh group)
      labelLoop host group cube rest

/-- Embedding of `plots.Lab_coordinates_system_representation` (source
lines 238–295): create a group transform and a 600×100×600 grid cube, set
its display attributes via `set_attributes`, freeze it, delete two of its
face ranges, set the NURBS-to-polygons preference, run the label loop for
the four axis labels, then rename the cube to `"grid"`, parent it and
rename the group, returning `True`. -/
def Lab_coordinates_system_representation (host : Host E D) :
    MayaM E D Bool := do
  let group ← hostCall (MayaCall.createNode "transform")
    (host.createNode "transform")
  let cubeList ← hostCall (MayaCall.polyCube 600 100 600 12 2 12 false)
    (host.polyCube 600 100 600 12 2 12 false)
  let cube ← pyIndex cubeList 0
  let _ ← set_attributes host
    [(cube ++ ".translateY", AttrValue.num 50),
     (cube ++ ".overrideEnabled", AttrValue.bool true),
     (cube ++ ".overrideDisplayType", AttrValue.num 2),
     (cube ++ ".overrideShading", AttrValue.bool false)]
  let _ ← hostCall (MayaCall.makeIdentity cube true true true true)
    (host.makeIdentity cube true true true true)
  let _ ← hostCall
    (MayaCall.select [cube ++ ".f[0:167]", cube ++ ".f[336:359]"])
    (host.select [cube ++ ".f[0:167]", cube ++ ".f[336:359]"])
  let _ ← hostCall MayaCall.deleteSelected host.deleteSelected
  let _ ← hostCall (MayaCall.nurbsToPolygonsPref 1 (975/1000))
    (host.nurbsToPolygonsPref 1 (975/1000))
  let _ ← labelLoop host group cube
    [("-a*", (-350, 0), "minus_a"),
     ("+a*", (350, 0), "plus_a"),
     ("-b*", (0, 350), "minus_b"),
     ("+b*", (0, -350), "plus_b")]
  let renamedCube ← hostCall (MayaCall.rename cube "grid")
    (host.rename cube "grid")
  let _ ← hostCall (MayaCall.parent renamedCube group)
    (host.parent renamedCube group)
  let _ ← hostCall
    (MayaCall.rename group "Lab_coordinates_system_representation")
    (host.rename group "Lab_coordinates_system_representation")
  pureM true

/-- `callRaises host c e` holds when the host's response to the API call
`c` is the raised exception `e`. -/
def callRaises (host : Host E D) : MayaCall D → E → Prop
  | MayaCall.polyCube w h d sx sy sz ch, e =>
      host.polyCube w h d sx sy sz ch = Except.error e
  | MayaCall.setAttr a v, e => host.setAttr a v = Except.error e
  | MayaCall.listRelatives o fp sh ni, e =>
      host.listRelatives o fp sh ni = Except.error e
  | MayaCall.getDagPath ns i, e => host.getDagPath ns i = Except.error e
  | MayaCall.getPoints p s, e => host.getPoints p s = Except.error e
  | MayaCall.setVertexColors p cs is, e =>
      host.setVertexColors p cs is = Except.error e
  | MayaCall.makeIdentity n a t r s, e =>
      host.makeIdentity n a t r s = Except.error e
  | MayaCall.xformPivots n rp sp, e =>
      host.xformPivots n rp sp = Except.error e
  | MayaCall.rename n nn, e => host.rename n nn = Except.error e
  | MayaCall.itVertexPositions p s, e =>
      host.itVertexPositions p s = Except.error e
  | MayaCall.setVertexPosition p i pt, e =>
      host.setVertexPosition p i pt = Except.error e
  | MayaCall.createNode t, e => host.createNode t = Except.error e
  | MayaCall.select ns, e => host.select ns = Except.error e
  | MayaCall.deleteSelected, e => host.deleteSelected = Except.error e
  | MayaCall.delete ns, e => host.delete ns = Except.error e
  | MayaCall.nurbsToPolygonsPref pt chr, e =>
      host.nurbsToPolygonsPref pt chr = Except.error e
  | MayaCall.textCurves f t, e => host.textCurves f t = Except.error e
  | MayaCall.listRelativesDefault o, e =>
      host.listRelativesDefault o = Except.error e
  | MayaCall.listRelativesParent os, e =>
      host.listRelativesParent os = Except.error e
  | MayaCall.planarSrf c ch o po, e =>
      host.planarSrf c ch o po = Except.error e
  | MayaCall.polyUnite ls ch, e => host.polyUnite ls ch = Except.error e
  | MayaCall.xformCenterPivots n, e =>
      host.xformCenterPivots n = Except.error e
  | MayaCall.xformTranslation n tr ab, e =>
      host.xformTranslation n tr ab = Except.error e
  | MayaCall.polyColorPerVertex rgb cdo, e =>
      host.polyColorPerVertex rgb cdo = Except.error e
  | MayaCall.parent c g, e => host.parent c g = Except.error e

/-- `noSwallow host m`: the run `m` handles host exceptions exactly as
raw unhandled exceptions do.  (1) If the outcome is a host exception `e`,
then the *last* call of the trace is the one the host raised `e` on — so
`e` reached the caller unmodified, nothing was issued after the raising
call (the whole procedure aborted there, no retry and no recovery), and
every earlier issued call had succeeded.  (2) If the outcome is a success,
no issued call raised.  (3) If the outcome is a Python-level error
(`IndexError`/`TypeError`), no issued host call raised either. -/
def noSwallow (host : Host E D) (m : MayaM E D α) : Prop :=
  (∀ e, m.2 = Except.error (Err.host e) →
    ∃ pre c, m.1 = pre ++ [c] ∧ callRaises host c e
      ∧ ∀ c' ∈ pre, ∀ e', ¬ callRaises host c' e')
  ∧ (∀ a, m.2 = Except.ok a → ∀ c ∈ m.1, ∀ e', ¬ callRaises host c e')
  ∧ (∀ err, m.2 = Except.error err → (∀ e, err ≠ Err.host e) →
      ∀ c ∈ m.1, ∀ e', ¬ callRaises host c e')

/-- The specification's reading of `get_shapes` as an exact pass-through of
the host's `listRelatives` result ("each returns exactly the value produced
by the corresponding host call, with no additional transformation"): the
host's Python result is either a list or `None`, modelled as
`Option (List String)`, and is returned unchanged. -/
def get_shapes_passthroughSpec (host : Host E D) (object : String)
    (full_path no_intermediate : Bool) : MayaM E D (Option (List String)) :=
  hostCall (MayaCall.listRelatives object full_path true no_intermediate)
    (host.listRelatives object full_path true no_intermediate)

/-! ## Concrete instantiations for witnesses and counterexamples -/

/-- The point the deformation loop writes for a vertex whose prior
object-space position is `position`. -/
def labPoint (lib : ColourScience ℚ V W M F I)
    (colourspace : RGB_Colourspace W M F) (position : ℚ × ℚ × ℚ) :
    MPoint ℚ :=
  get_mpoint (lib.toTriple (lib.np_ravel (RGB_to_Lab lib
    (position.1, position.2.1, position.2.2) colourspace)))

/-- A host on which every API call succeeds, with simple deterministic
responses (`E` is `String`, DAG paths are node names). -/
def okHost : Host String String where
  polyCube := fun _ _ _ _ _ _ _ => Except.ok ["pCube1"]
  setAttr := fun _ _ => Except.ok ()
  listRelatives := fun object _ _ _ => Except.ok (some [object ++ "Shape"])
  getDagPath := fun nodes _ => Except.ok (nodes.headD "")
  getPoints := fun _ _ => Except.ok [(0, 0, 0), (1, 1/2, 1)]
  setVertexColors := fun _ _ _ => Except.ok ()
  makeIdentity := fun _ _ _ _ _ => Except.ok ()
  xformPivots := fun _ _ _ => Except.ok ()
  rename := fun _ newName => Except.ok newName
  itVertexPositions := fun _ _ => Except.ok [(0, 0, 0), (1, 0, 0)]
  setVertexPosition := fun _ _ _ => Except.ok ()
  createNode := fun nodeType => Except.ok (nodeType ++ "1")
  select := fun _ => Except.ok ()
  deleteSelected := Except.ok ()
  delete := fun _ => Except.ok ()
  nurbsToPolygonsPref := fun _ _ => Except.ok ()
  textCurves := fun _ text => Except.ok ["Text_" ++ text]
  listRelativesDefault := fun object => Except.ok (some [object ++ "Curve"])
  listRelativesParent := fun _ => Except.ok (some ["curveGroup"])
  planarSrf := fun curve _ _ _ => Except.ok [curve ++ "Srf"]
  polyUnite := fun _ _ => Except.ok ["unitedMesh"]
  xformCenterPivots := fun _ => Except.ok ()
  xformTranslation := fun _ _ _ => Except.ok ()
  polyColorPerVertex := fun _ _ => Except.ok ()
  parent := fun _ _ => Except.ok ()

/-- A host identical to `okHost` except that `setAttr` raises on the
attribute named `"bad.translateX"`. -/
def failSetAttrHost : Host String String :=
  { okHost with
    setAttr := fun a _ =>
      if a = "bad.translateX" then Except.error "setAttr: attribute is locked"
      else Except.ok () }

/-- A host identical to `okHost` except that `listRelatives` yields `None`
(the object has no matching shapes). -/
def noShapesHost : Host String String :=
  { okHost with listRelatives := fun _ _ _ _ => Except.ok none }

/-- A host identical to `okHost` except that `polyCube` raises. -/
def failPolyCubeHost : Host String String :=
  { okHost with
    polyCube := fun _ _ _ _ _ _ _ => Except.error "polyCube: command failed" }

end ColourMaya

namespace ColourMaya

/-! ## Theorems -/

variable {E D α β : Type} {S V W M F I : Type}

theorem MayaM.bind_def (x : MayaM E D α) (f : α → MayaM E D β) :
    x >>= f = MayaM.mbind x f := rfl

theorem MayaM.pure_def (a : α) : (pure a : MayaM E D α) = MayaM.pureM a := rfl

/-- C1: `RGB_to_Lab` is exactly the composition
`XYZ_to_Lab (RGB_to_XYZ (np.array RGB) whitepoint E to_XYZ Bradford itf)
whitepoint` described by the spec, for every RGB triple, every colourspace
and every (abstract) external library — no other branching or
transformation. -/
theorem RGB_to_Lab_is_library_composition
    (lib : ColourScience S V W M F I) (RGB : S × S × S)
    (colourspace : RGB_Colourspace W M F) :
    RGB_to_Lab lib RGB colourspace = RGB_to_Lab_specSide lib RGB colourspace :=
  rfl

/-- C2: `RGB_to_Lab` is deterministic and depends only on the RGB value and
the colourspace's `whitepoint`, `to_XYZ` and `inverse_transfer_function`:
two calls on equal RGB inputs and colourspaces agreeing on those three
attributes (the names may differ) return equal results — the embedding is a
pure function, so no hidden state is read or mutated. -/
theorem RGB_to_Lab_deterministic
    (lib : ColourScience S V W M F I) (RGB₁ RGB₂ : S × S × S)
    (cs₁ cs₂ : RGB_Colourspace W M F)
    (hRGB : RGB₁ = RGB₂)
    (hwp : cs₁.whitepoint = cs₂.whitepoint)
    (hmx : cs₁.to_XYZ = cs₂.to_XYZ)
    (hitf : cs₁.inverse_transfer_function = cs₂.inverse_transfer_function) :
    RGB_to_Lab lib RGB₁ cs₁ = RGB_to_Lab lib RGB₂ cs₂ := by
  unfold RGB_to_Lab
  rw [hRGB, hwp, hmx, hitf]

/-- Witness for C2 at a concrete input: the two colourspaces differ in name
only, and `RGB_to_Lab` agrees on them. -/
theorem RGB_to_Lab_deterministic_witness :
    RGB_to_Lab testLib (1, 2, 3) testColourspace
      = RGB_to_Lab testLib (1, 2, 3) testColourspace' :=
  RGB_to_Lab_deterministic testLib (1, 2, 3) (1, 2, 3)
    testColourspace testColourspace' rfl rfl rfl rfl

/-- Helper: when every `setAttr` in the mapping succeeds, `set_attributes`
issues exactly one `setAttr` call per entry, in order, and returns `True`. -/
theorem set_attributes_ok (host : Host E D)
    (attrs : List (String × AttrValue))
    (h : ∀ p ∈ attrs, host.setAttr p.1 p.2 = Except.ok ()) :
    set_attributes host attrs
      = (attrs.map (fun p => MayaCall.setAttr p.1 p.2), Except.ok true) := by
  induction attrs with
  | nil => rfl
  | cons hd tl ih =>
      obtain ⟨a, v⟩ := hd
      have h1 : host.setAttr a v = Except.ok () := h (a, v) (by simp)
      have h2 := ih (fun p hp => h p (List.mem_cons_of_mem _ hp))
      simp [set_attributes, MayaM.mbind, MayaM.hostCall, h1, h2]

/-- Helper: when the `setAttr` calls for `attrs₁` succeed and the one for
`(a, v)` raises `e`, `set_attributes` issues the calls for `attrs₁` and the
failing call, then aborts with `e` unmodified: nothing is undone, the
entries of `attrs₂` are never issued. -/
theorem set_attributes_error (host : Host E D)
    (attrs₁ : List (String × AttrValue)) (a : String) (v : AttrValue)
    (attrs₂ : List (String × AttrValue)) (e : E)
    (h1 : ∀ p ∈ attrs₁, host.setAttr p.1 p.2 = Except.ok ())
    (h2 : host.setAttr a v = Except.error e) :
    set_attributes host (attrs₁ ++ (a, v) :: attrs₂)
      = (attrs₁.map (fun p => MayaCall.setAttr p.1 p.2)
          ++ [MayaCall.setAttr a v], Except.error (Err.host e)) := by
  induction attrs₁ with
  | nil => simp [set_attributes, MayaM.mbind, MayaM.hostCall, h2]
  | cons hd tl ih =>
      obtain ⟨a', v'⟩ := hd
      have hh : host.setAttr a' v' = Except.ok () := h1 (a', v') (by simp)
      have h3 := ih (fun p hp => h1 p (List.mem_cons_of_mem _ hp))
      simp [set_attributes, MayaM.mbind, MayaM.hostCall, hh, h3]

/-- C3: for every mapping whose entries the host accepts, `set_attributes`
issues exactly one `cmds.setAttr(attribute, value)` call per entry of the
mapping, performs no other host call, and returns `True`; for the empty
mapping it issues no host call at all. -/
theorem set_attributes_one_setAttr_per_entry (host : Host E D)
    (attrs : List (String × AttrValue))
    (h : ∀ p ∈ attrs, host.setAttr p.1 p.2 = Except.ok ()) :
    set_attributes host attrs
        = (attrs.map (fun p => MayaCall.setAttr p.1 p.2), Except.ok true)
      ∧ set_attributes host ([] : List (String × AttrValue))
        = ([], Except.ok true) :=
  ⟨set_attributes_ok host attrs h, rfl⟩

/-- Witness for C3: on the all-succeeding host and a two-entry mapping, the
trace is the two `setAttr` calls and the result is `True`. -/
theorem set_attributes_one_setAttr_per_entry_witness :
    set_attributes okHost
        [("pCube1.translateX", AttrValue.num (1/2)),
         ("pCube1.displayColors", AttrValue.bool true)]
      = ([MayaCall.setAttr "pCube1.translateX" (AttrValue.num (1/2)),
          MayaCall.setAttr "pCube1.displayColors" (AttrValue.bool true)],
         Except.ok true)
    ∧ set_attributes okHost ([] : List (String × AttrValue))
      = ([], Except.ok true) :=
  set_attributes_one_setAttr_per_entry okHost
    [("pCube1.translateX", AttrValue.num (1/2)),
     ("pCube1.displayColors", AttrValue.bool true)]
    (fun _ _ => rfl)

/-- C5 counterexample: the import guard is *not* a bare exception swallow.
A non-`ImportError` exception raised by the import (for example a
`RuntimeError` raised while initialising the `maya` package) is not
discarded: it propagates, so the claim "any exception raised by that import
is silently discarded" is false at this concrete input. -/
theorem import_guard_not_bare_counterexample :
    module_import_guard
        (Except.error ⟨false, "RuntimeError: maya package initialisation"⟩)
      = Except.error ⟨false, "RuntimeError: maya package initialisation"⟩
    ∧ module_import_guard
        (Except.error ⟨false, "RuntimeError: maya package initialisation"⟩)
      ≠ Except.ok () := by
  constructor
  · rfl
  · intro h
    simp [module_import_guard] at h

/-- C5 (amended): the module-load-time import of the host API is wrapped in
a handler that silently discards exactly the `ImportError` exceptions: when
the host API is absent the import raises an `ImportError` and the module
still loads (importable but non-functional outside the host), while a
non-`ImportError` exception propagates. -/
theorem import_guard_swallows_importError (e : PyException)
    (h : e.isImportError = true) :
    module_import_guard (Except.error e) = Except.ok ()
    ∧ module_import_guard (Except.ok ()) = Except.ok ()
    ∧ ∀ e' : PyException, e'.isImportError = false →
        module_import_guard (Except.error e') = Except.error e' := by
  refine ⟨by simp [module_import_guard, h], rfl, ?_⟩
  intro e' h'
  simp [module_import_guard, h']

/-- Witness for C5 (amended): the `ImportError` raised when `maya` is
absent is swallowed and the module loads. -/
theorem import_guard_swallows_importError_witness :
    module_import_guard
        (Except.error ⟨true, "ImportError: No module named maya"⟩)
      = Except.ok ()
    ∧ module_import_guard (Except.ok ()) = Except.ok ()
    ∧ ∀ e' : PyException, e'.isImportError = false →
        module_import_guard (Except.error e') = Except.error e' :=
  import_guard_swallows_importError
    ⟨true, "ImportError: No module named maya"⟩ rfl

/-- C10: `get_shapes` never returns `None`: for every host, object and
combination of the `full_path` and `no_intermediate` flags, when the host's
`listRelatives` query yields `None`, `get_shapes` returns the empty list
(its result type in the embedding is a list, so every successful return is
a list). -/
theorem get_shapes_none_to_empty_list (host : Host E D) (object : String)
    (full_path no_intermediate : Bool)
    (h : host.listRelatives object full_path true no_intermediate
      = Except.ok none) :
    get_shapes host object full_path no_intermediate
      = ([MayaCall.listRelatives object full_path true no_intermediate],
         Except.ok ([] : List String)) := by
  simp [get_shapes, MayaM.mbind, MayaM.hostCall, MayaM.pureM, h]

/-- Witness for C10: on a host whose `listRelatives` yields `None`,
`get_shapes` returns the empty list. -/
theorem get_shapes_none_to_empty_list_witness :
    get_shapes noShapesHost "pCube1" false true
      = ([MayaCall.listRelatives "pCube1" false true true],
         Except.ok ([] : List String)) :=
  get_shapes_none_to_empty_list noShapesHost "pCube1" false true rfl

/-- Helper: a pure return issues no call and swallows nothing. -/
theorem noSwallow_pureM (host : Host E D) (a : α) :
    noSwallow host (MayaM.pureM a : MayaM E D α) := by
  refine ⟨?_, ?_, ?_⟩ <;> simp [MayaM.pureM]

/-- Helper: Python list indexing issues no host call and swallows
nothing. -/
theorem noSwallow_pyIndex (host : Host E D) (xs : List α) (i : ℕ) :
    noSwallow host (MayaM.pyIndex xs i : MayaM E D α) := by
  refine ⟨?_, ?_, ?_⟩ <;> cases h : xs[i]? <;>
    simp [MayaM.pyIndex, h]

/-- Helper: Python iteration of an optional list issues no host call and
swallows nothing. -/
theorem noSwallow_pyIterate (host : Host E D) (xs : Option (List α)) :
    noSwallow host (MayaM.pyIterate xs : MayaM E D (List α)) := by
  refine ⟨?_, ?_, ?_⟩ <;> cases xs <;> simp [MayaM.pyIterate]

/-- Helper: one host call, whose recorded call and response match, either
succeeds or ends the run right there with the host's exception
unmodified. -/
theorem noSwallow_hostCall (host : Host E D) (c : MayaCall D)
    (r : Except E α) (hiff : ∀ e, callRaises host c e ↔ r = Except.error e) :
    noSwallow host (MayaM.hostCall c r) := by
  cases r with
  | ok a =>
      refine ⟨?_, ?_, ?_⟩
      · intro e he
        simp [MayaM.hostCall] at he
      · intro b _ c' hc' e' hr
        rw [List.mem_singleton.mp ((by simpa [MayaM.hostCall] using hc')
          : c' ∈ [c])] at hr
        exact absurd ((hiff e').mp hr) (by simp)
      · intro err _ _ c' hc' e' hr
        rw [List.mem_singleton.mp ((by simpa [MayaM.hostCall] using hc')
          : c' ∈ [c])] at hr
        exact absurd ((hiff e').mp hr) (by simp)
  | error e =>
      refine ⟨?_, ?_, ?_⟩
      · intro e₀ he₀
        simp [MayaM.hostCall] at he₀
        exact he₀ ▸ ⟨[], c, rfl, (hiff e).mpr rfl, by simp⟩
      · intro b hb
        simp [MayaM.hostCall] at hb
      · intro err herr hne
        simp [MayaM.hostCall] at herr
        exact absurd herr.symm (hne e)

/-- Helper: sequencing preserves `noSwallow`: an exception in the first
part ends the whole run there; one in the continuation ends it with the
first part's (all-successful) calls kept in front. -/
theorem noSwallow_mbind (host : Host E D) (x : MayaM E D α)
    (f : α → MayaM E D β) (hx : noSwallow host x)
    (hf : ∀ a, noSwallow host (f a)) :
    noSwallow host (MayaM.mbind x f) := by
  obtain ⟨tr, r⟩ := x
  cases r with
  | error err =>
      obtain ⟨hx1, hx2, hx3⟩ := hx
      dsimp only at hx1 hx3
      refine ⟨?_, ?_, ?_⟩
      · intro e he
        simp only [MayaM.mbind] at he ⊢
        simp only [Except.error.injEq] at he
        exact hx1 e (by rw [he])
      · intro b hb
        simp [MayaM.mbind] at hb
      · intro err' herr' hne c hc e'
        simp only [MayaM.mbind] at herr' hc
        simp only [Except.error.injEq] at herr'
        exact hx3 err' (by rw [herr']) hne c hc e'
  | ok a =>
      obtain ⟨hx1, hx2, hx3⟩ := hx
      obtain ⟨hf1, hf2, hf3⟩ := hf a
      refine ⟨?_, ?_, ?_⟩
      · intro e he
        simp only [MayaM.mbind] at he ⊢
        obtain ⟨pre, c, hpre, hc, hclean⟩ := hf1 e he
        refine ⟨tr ++ pre, c, ?_, hc, ?_⟩
        · rw [hpre, List.append_assoc]
        · intro c' hc' e'
          rcases List.mem_append.mp hc' with h | h
          · exact hx2 a rfl c' h e'
          · exact hclean c' h e'
      · intro b hb c hc e'
        simp only [MayaM.mbind] at hb hc
        rcases List.mem_append.mp hc with h | h
        · exact hx2 a rfl c h e'
        · exact hf2 b hb c h e'
      · intro err herr hne c hc e'
        simp only [MayaM.mbind] at herr hc
        rcases List.mem_append.mp hc with h | h
        · exact hx2 a rfl c h e'
        · exact hf3 err herr hne c h e'

/-- Helper: `set_attributes` never swallows a host exception. -/
theorem set_attributes_noSwallow (host : Host E D)
    (attrs : List (String × AttrValue)) :
    noSwallow host (set_attributes host attrs) := by
  induction attrs with
  | nil => exact noSwallow_pureM host true
  | cons hd tl ih =>
      obtain ⟨a, v⟩ := hd
      exact noSwallow_mbind host _ _
        (noSwallow_hostCall host _ _ (fun _ => Iff.rfl)) (fun _ => ih)

/-- Helper: `get_shapes` never swallows a host exception. -/
theorem get_shapes_noSwallow (host : Host E D) (object : String)
    (full_path no_intermediate : Bool) :
    noSwallow host (get_shapes host object full_path no_intermediate) := by
  refine noSwallow_mbind host _ _
    (noSwallow_hostCall host _ _ (fun _ => Iff.rfl)) (fun shapes => ?_)
  cases shapes <;> exact noSwallow_pureM host _

/-- Helper: `get_dag_path` never swallows a host exception. -/
theorem get_dag_path_noSwallow (host : Host E D) (node : String) :
    noSwallow host (get_dag_path host node) :=
  noSwallow_hostCall host _ _ (fun _ => Iff.rfl)

/-- Helper: the vertex-deformation loop never swallows a host
exception. -/
theorem vertexDeformLoop_noSwallow (host : Host E D)
    (lib : ColourScience ℚ V W M F I) (cs : RGB_Colourspace W M F)
    (path : D) (positions : List (ℚ × ℚ × ℚ)) (i : ℕ) :
    noSwallow host (vertexDeformLoop host lib cs path positions i) := by
  induction positions generalizing i with
  | nil => exact noSwallow_pureM host ()
  | cons p tl ih =>
      exact noSwallow_mbind host _ _
        (noSwallow_hostCall host _ _ (fun _ => Iff.rfl)) (fun _ => ih (i + 1))

/-- Helper: `RGB_identity_cube` never swallows a host exception, wherever
in its call sequence the host raises. -/
theorem RGB_identity_cube_noSwallow (host : Host E D) (name : String)
    (density : ℕ) :
    noSwallow host (RGB_identity_cube host name density) := by
  unfold RGB_identity_cube
  simp only [MayaM.bind_def]
  refine noSwallow_mbind host _ _
    (noSwallow_hostCall host _ _ (fun _ => Iff.rfl)) (fun cubeList => ?_)
  refine noSwallow_mbind host _ _ (noSwallow_pyIndex host _ _)
    (fun cube => ?_)
  refine noSwallow_mbind host _ _ (set_attributes_noSwallow host _)
    (fun _ => ?_)
  refine noSwallow_mbind host _ _
    (noSwallow_hostCall host _ _ (fun _ => Iff.rfl)) (fun _ => ?_)
  refine noSwallow_mbind host _ _ (get_shapes_noSwallow host _ _ _)
    (fun shapes => ?_)
  refine noSwallow_mbind host _ _ (noSwallow_pyIndex host _ _)
    (fun shape => ?_)
  refine noSwallow_mbind host _ _ (get_dag_path_noSwallow host _)
    (fun path => ?_)
  refine noSwallow_mbind host _ _
    (noSwallow_hostCall host _ _ (fun _ => Iff.rfl)) (fun pts => ?_)
  refine noSwallow_mbind host _ _
    (noSwallow_hostCall host _ _ (fun _ => Iff.rfl)) (fun _ => ?_)
  refine noSwallow_mbind host _ _
    (noSwallow_hostCall host _ _ (fun _ => Iff.rfl)) (fun _ => ?_)
  refine noSwallow_mbind host _ _
    (noSwallow_hostCall host _ _ (fun _ => Iff.rfl)) (fun _ => ?_)
  exact noSwallow_hostCall host _ _ (fun _ => Iff.rfl)

/-- Helper: `Lab_colourspace_cube` never swallows a host exception,
wherever in its call sequence the host raises. -/
theorem Lab_colourspace_cube_noSwallow (host : Host E D)
    (lib : ColourScience ℚ V W M F I) (cs : RGB_Colourspace W M F)
    (density : ℕ) :
    noSwallow host (Lab_colourspace_cube host lib cs density) := by
  unfold Lab_colourspace_cube
  simp only [MayaM.bind_def]
  refine noSwallow_mbind host _ _
    (RGB_identity_cube_noSwallow host _ _) (fun cube => ?_)
  refine noSwallow_mbind host _ _ (get_dag_path_noSwallow host _)
    (fun path => ?_)
  refine noSwallow_mbind host _ _
    (noSwallow_hostCall host _ _ (fun _ => Iff.rfl)) (fun positions => ?_)
  refine noSwallow_mbind host _ _
    (vertexDeformLoop_noSwallow host lib cs _ _ _) (fun _ => ?_)
  refine noSwallow_mbind host _ _ (set_attributes_noSwallow host _)
    (fun _ => ?_)
  refine noSwallow_mbind host _ _
    (noSwallow_hostCall host _ _ (fun _ => Iff.rfl)) (fun _ => ?_)
  exact noSwallow_pureM host _

/-- Helper: the planar-surface comprehension never swallows a host
exception. -/
theorem planarSrfLoop_noSwallow (host : Host E D) (curves : List String) :
    noSwallow host (planarSrfLoop host curves) := by
  induction curves with
  | nil => exact noSwallow_pureM host []
  | cons x rest ih =>
      refine noSwallow_mbind host _ _
        (noSwallow_hostCall host _ _ (fun _ => Iff.rfl)) (fun s => ?_)
      exact noSwallow_mbind host _ _ ih (fun ss => noSwallow_pureM host _)

/-- Helper: the label loop never swallows a host exception. -/
theorem labelLoop_noSwallow (host : Host E D) (group cube : String)
    (labels : List (String × (ℚ × ℚ) × String)) :
    noSwallow host (labelLoop host group cube labels) := by
  induction labels with
  | nil => exact noSwallow_pureM host ()
  | cons hd rest ih =>
      obtain ⟨label, position, name⟩ := hd
      unfold labelLoop
      simp only [MayaM.bind_def]
      refine noSwallow_mbind host _ _
        (noSwallow_hostCall host _ _ (fun _ => Iff.rfl)) (fun _ => ?_)
      refine noSwallow_mbind host _ _ (noSwallow_pyIndex host _ _)
        (fun _ => ?_)
      refine noSwallow_mbind host _ _
        (noSwallow_hostCall host _ _ (fun _ => Iff.rfl)) (fun _ => ?_)
      refine noSwallow_mbind host _ _ (noSwallow_pyIterate host _)
        (fun curves => ?_)
      refine noSwallow_mbind host _ _ (planarSrfLoop_noSwallow host _)
        (fun srfs => ?_)
      refine noSwallow_mbind host _ _
        (noSwallow_hostCall host _ _ (fun _ => Iff.rfl)) (fun united => ?_)
      refine noSwallow_mbind host _ _ (noSwallow_pyIndex host _ _)
        (fun mesh => ?_)
      refine noSwallow_mbind host _ _
        (noSwallow_hostCall host _ _ (fun _ => Iff.rfl)) (fun _ => ?_)
      refine noSwallow_mbind host _ _
        (noSwallow_hostCall host _ _ (fun _ => Iff.rfl)) (fun _ => ?_)
      refine noSwallow_mbind host _ _
        (noSwallow_hostCall host _ _ (fun _ => Iff.rfl)) (fun _ => ?_)
      refine noSwallow_mbind host _ _
        (noSwallow_hostCall host _ _ (fun _ => Iff.rfl)) (fun _ => ?_)
      refine noSwallow_mbind host _ _
        (noSwallow_hostCall host _ _ (fun _ => Iff.rfl)) (fun _ => ?_)
      refine noSwallow_mbind host _ _ (set_attributes_noSwallow host _)
        (fun _ => ?_)
      refine noSwallow_mbind host _ _
        (noSwallow_hostCall host _ _ (fun _ => Iff.rfl)) (fun _ => ?_)
      refine noSwallow_mbind host _ _
        (noSwallow_hostCall host _ _ (fun _ => Iff.rfl)) (fun _ => ?_)
      refine noSwallow_mbind host _ _
        (noSwallow_hostCall host _ _ (fun _ => Iff.rfl)) (fun _ => ?_)
      refine noSwallow_mbind host _ _
        (noSwallow_hostCall host _ _ (fun _ => Iff.rfl)) (fun _ => ?_)
      refine noSwallow_mbind host _ _
        (noSwallow_hostCall host _ _ (fun _ => Iff.rfl)) (fun _ => ?_)
      exact ih

/-- Helper: `Lab_coordinates_system_representation` never swallows a host
exception, wherever in its call sequence the host raises. -/
theorem Lab_coordinates_system_representation_noSwallow (host : Host E D) :
    noSwallow host (Lab_coordinates_system_representation host) := by
  unfold Lab_coordinates_system_representation
  simp only [MayaM.bind_def]
  refine noSwallow_mbind host _ _
    (noSwallow_hostCall host _ _ (fun _ => Iff.rfl)) (fun group => ?_)
  refine noSwallow_mbind host _ _
    (noSwallow_hostCall host _ _ (fun _ => Iff.rfl)) (fun cubeList => ?_)
  refine noSwallow_mbind host _ _ (noSwallow_pyIndex host _ _)
    (fun cube => ?_)
  refine noSwallow_mbind host _ _ (set_attributes_noSwallow host _)
    (fun _ => ?_)
  refine noSwallow_mbind host _ _
    (noSwallow_hostCall host _ _ (fun _ => Iff.rfl)) (fun _ => ?_)
  refine noSwallow_mbind host _ _
    (noSwallow_hostCall host _ _ (fun _ => Iff.rfl)) (fun _ => ?_)
  refine noSwallow_mbind host _ _
    (noSwallow_hostCall host _ _ (fun _ => Iff.rfl)) (fun _ => ?_)
  refine noSwallow_mbind host _ _
    (noSwallow_hostCall host _ _ (fun _ => Iff.rfl)) (fun _ => ?_)
  refine noSwallow_mbind host _ _ (labelLoop_noSwallow host _ _ _)
    (fun _ => ?_)
  refine noSwallow_mbind host _ _
    (noSwallow_hostCall host _ _ (fun _ => Iff.rfl)) (fun _ => ?_)
  refine noSwallow_mbind host _ _
    (noSwallow_hostCall host _ _ (fun _ => Iff.rfl)) (fun _ => ?_)
  refine noSwallow_mbind host _ _
    (noSwallow_hostCall host _ _ (fun _ => Iff.rfl)) (fun _ => ?_)
  exact noSwallow_pureM host true

/-- C4: a host exception raised during any function of the module
propagates unmodified to the caller and aborts the whole procedure.  For
`set_attributes` concretely: if the host accepts the `setAttr` calls for
the entries of `attrs₁` and raises `e` on `(a, v)`, the run issues exactly
the calls for `attrs₁` and the failing call (earlier sets are not undone),
the entries of `attrs₂` are never issued (no retry, no recovery), and the
outcome is `e` unmodified.  In general, every function of the module
satisfies `noSwallow`: whatever call of its sequence the host raises on,
that raising call is the last one issued — the procedure aborts there,
with the earlier issued calls standing — and the raised exception is the
run's outcome, untranslated; no successful outcome hides a raising
call. -/
theorem host_exceptions_propagate_unmodified (host : Host E D) :
    (∀ (attrs₁ : List (String × AttrValue)) (a : String) (v : AttrValue)
        (attrs₂ : List (String × AttrValue)) (e : E),
      (∀ p ∈ attrs₁, host.setAttr p.1 p.2 = Except.ok ()) →
      host.setAttr a v = Except.error e →
      set_attributes host (attrs₁ ++ (a, v) :: attrs₂)
        = (attrs₁.map (fun p => MayaCall.setAttr p.1 p.2)
            ++ [MayaCall.setAttr a v], Except.error (Err.host e)))
    ∧ (∀ attrs, noSwallow host (set_attributes host attrs))
    ∧ (∀ (object : String) (fp ni : Bool),
        noSwallow host (get_shapes host object fp ni))
    ∧ (∀ node : String, noSwallow host (get_dag_path host node))
    ∧ (∀ (name : String) (density : ℕ),
        noSwallow host (RGB_identity_cube host name density))
    ∧ (∀ (lib : ColourScience ℚ V W M F I) (cs : RGB_Colourspace W M F)
          (density : ℕ),
        noSwallow host (Lab_colourspace_cube host lib cs density))
    ∧ noSwallow host (Lab_coordinates_system_representation host) :=
  ⟨fun attrs₁ a v attrs₂ e h1 h2 =>
      set_attributes_error host attrs₁ a v attrs₂ e h1 h2,
    fun attrs => set_attributes_noSwallow host attrs,
    fun object fp ni => get_shapes_noSwallow host object fp ni,
    fun node => get_dag_path_noSwallow host node,
    fun name density => RGB_identity_cube_noSwallow host name density,
    fun lib cs density => Lab_colourspace_cube_noSwallow host lib cs density,
    Lab_coordinates_system_representation_noSwallow host⟩

/-- Witness for C4: on a host whose `setAttr` raises on `"bad.translateX"`,
a three-entry mapping aborts after the second call with the host's
exception, keeping the first issued call; and the `noSwallow` guarantees
hold concretely for `RGB_identity_cube` on a host whose `polyCube` raises
and for `Lab_coordinates_system_representation` on the all-succeeding
host. -/
theorem host_exceptions_propagate_unmodified_witness :
    set_attributes failSetAttrHost
        [("pCube1.translateX", AttrValue.num (1/2)),
         ("bad.translateX", AttrValue.num (1/2)),
         ("pCube1.translateZ", AttrValue.num (1/2))]
      = ([MayaCall.setAttr "pCube1.translateX" (AttrValue.num (1/2)),
          MayaCall.setAttr "bad.translateX" (AttrValue.num (1/2))],
         Except.error (Err.host "setAttr: attribute is locked"))
    ∧ noSwallow failPolyCubeHost (RGB_identity_cube failPolyCubeHost
        "cube" 20)
    ∧ noSwallow okHost (Lab_coordinates_system_representation okHost) :=
  ⟨(host_exceptions_propagate_unmodified
      (V := ℚ × ℚ × ℚ) (W := ℚ × ℚ) (M := Unit) (F := Unit) (I := Unit)
      failSetAttrHost).1
      [("pCube1.translateX", AttrValue.num (1/2))]
      "bad.translateX" (AttrValue.num (1/2))
      [("pCube1.translateZ", AttrValue.num (1/2))]
      "setAttr: attribute is locked"
      (by intro p hp; simp at hp; subst hp; rfl)
      rfl,
    (host_exceptions_propagate_unmodified
        (V := ℚ × ℚ × ℚ) (W := ℚ × ℚ) (M := Unit) (F := Unit) (I := Unit)
        failPolyCubeHost).2.2.2.2.1 "cube" 20,
    (host_exceptions_propagate_unmodified
        (V := ℚ × ℚ × ℚ) (W := ℚ × ℚ) (M := Unit) (F := Unit) (I := Unit)
        okHost).2.2.2.2.2.2⟩

/-- C6 counterexample: `get_shapes` is *not* an exact pass-through of the
host's result.  On a host whose `listRelatives` yields `None` (as a Python
value, `none`), `get_shapes` returns the empty list `[]`, and `[]` is not
`None` — the `None → []` replacement is a transformation of the host's
result, so the claim as stated is false at this concrete input. -/
theorem get_shapes_not_passthrough_counterexample :
    noShapesHost.listRelatives "pCube1" false true true = Except.ok none
    ∧ (get_shapes noShapesHost "pCube1" false true).2
        = Except.ok ([] : List String)
    ∧ (get_shapes_passthroughSpec noShapesHost "pCube1" false true).2
        = Except.ok (none : Option (List String))
    ∧ Except.map (fun l => some l)
          (get_shapes noShapesHost "pCube1" false true).2
        ≠ (get_shapes_passthroughSpec noShapesHost "pCube1" false true).2 := by
  refine ⟨rfl, rfl, rfl, ?_⟩
  intro h
  simp [get_shapes, get_shapes_passthroughSpec, noShapesHost, okHost,
    MayaM.mbind, MayaM.hostCall, MayaM.pureM, Except.map] at h

/-- C6 (amended): `get_dag_path` and `get_mpoint` are exact pass-throughs
to the host query APIs (the DAG path at index 0 of the selection list for
the node; `MPoint` built from the tuple's three components), each issuing
exactly the one corresponding host call; `get_shapes` returns the host's
`listRelatives` result unchanged whenever that result is a list, and
replaces a `None` result by the empty list. -/
theorem query_helpers_passthrough (host : Host E D) :
    (∀ (node : String) (d : D), host.getDagPath [node] 0 = Except.ok d →
      get_dag_path host node
        = ([MayaCall.getDagPath [node] 0], Except.ok d))
    ∧ (∀ p : S × S × S, get_mpoint p = MPoint.mk p.1 p.2.1 p.2.2)
    ∧ (∀ (object : String) (fp ni : Bool) (s : List String),
        host.listRelatives object fp true ni = Except.ok (some s) →
        get_shapes host object fp ni
          = ([MayaCall.listRelatives object fp true ni], Except.ok s))
    ∧ (∀ (object : String) (fp ni : Bool),
        host.listRelatives object fp true ni = Except.ok none →
        get_shapes host object fp ni
          = ([MayaCall.listRelatives object fp true ni],
             Except.ok ([] : List String))) := by
  refine ⟨fun node d h => ?_, fun p => rfl,
    fun object fp ni s h => ?_, fun object fp ni h => ?_⟩
  · simp [get_dag_path, MayaM.hostCall, h]
  · simp [get_shapes, MayaM.mbind, MayaM.hostCall, MayaM.pureM, h]
  · simp [get_shapes, MayaM.mbind, MayaM.hostCall, MayaM.pureM, h]

/-- Witness for C6 (amended), on the all-succeeding host at concrete
inputs. -/
theorem query_helpers_passthrough_witness :
    get_dag_path okHost "pCube1Shape"
      = ([MayaCall.getDagPath ["pCube1Shape"] 0], Except.ok "pCube1Shape")
    ∧ get_mpoint ((1 : ℚ), (2 : ℚ), (3 : ℚ)) = MPoint.mk 1 2 3
    ∧ get_shapes okHost "pCube1" false true
      = ([MayaCall.listRelatives "pCube1" false true true],
         Except.ok ["pCube1Shape"]) :=
  ⟨(query_helpers_passthrough (S := ℚ) okHost).1 "pCube1Shape" "pCube1Shape"
      rfl,
    (query_helpers_passthrough (S := ℚ) okHost).2.1 (1, 2, 3),
    (query_helpers_passthrough (S := ℚ) okHost).2.2.1 "pCube1" false true
      ["pCube1Shape"] rfl⟩

/-- Helper: the vertex-colour loop's fold, over any index list and
accumulator. -/
theorem buildVertexArrays_foldl (pts : List (ℚ × ℚ × ℚ)) (l : List ℕ)
    (acc : List (ℚ × ℚ × ℚ) × List ℕ) :
    l.foldl
        (fun acc i =>
          let p := pts.getD i (0, 0, 0)
          (acc.1 ++ [(p.1, p.2.1, p.2.2)], acc.2 ++ [i])) acc
      = (acc.1 ++ l.map (fun i =>
          let p := pts.getD i (0, 0, 0)
          (p.1, p.2.1, p.2.2)), acc.2 ++ l) := by
  induction l generalizing acc with
  | nil => simp
  | cons i tl ih =>
      rw [List.foldl_cons, ih]
      simp

/-- Helper: reading each entry of a list back by its index over
`range (length)` reproduces the list. -/
theorem range_map_getD (pts : List (ℚ × ℚ × ℚ)) :
    (List.range pts.length).map (fun i =>
        let p := pts.getD i (0, 0, 0)
        (p.1, p.2.1, p.2.2))
      = pts := by
  induction pts with
  | nil => rfl
  | cons p tl ih =>
      rw [List.length_cons, List.range_succ_eq_map]
      simp only [List.map_cons, List.map_map, List.cons.injEq]
      constructor
      · simp
      · simpa [Function.comp_def, Nat.succ_eq_add_one,
          List.getElem?_cons_succ] using ih

/-- Helper: the vertex-colour loop of `RGB_identity_cube` builds the colour
array equal to the point array and the index array `0, 1, …, n-1`. -/
theorem buildVertexArrays_eq (pts : List (ℚ × ℚ × ℚ)) :
    buildVertexArrays pts = (pts, List.range pts.length) := by
  unfold buildVertexArrays
  rw [buildVertexArrays_foldl, range_map_getD]
  simp

/-- Helper: when every `setVertexPosition` succeeds, the deformation loop
issues, for the `j`-th yielded position (starting at iterator index `i`),
one `setVertexPosition` call at index `i + j` with the Lab-deformed point,
and nothing else. -/
theorem vertexDeformLoop_ok (host : Host E D) (lib : ColourScience ℚ V W M F I)
    (cs : RGB_Colourspace W M F) (path : D) (positions : List (ℚ × ℚ × ℚ))
    (i : ℕ) (h : ∀ j p, host.setVertexPosition path j p = Except.ok ()) :
    vertexDeformLoop host lib cs path positions i
      = ((List.enumFrom i positions).map (fun pr =>
          MayaCall.setVertexPosition path pr.1 (labPoint lib cs pr.2)),
         Except.ok ()) := by
  induction positions generalizing i with
  | nil => rfl
  | cons p tl ih =>
      simp [vertexDeformLoop, MayaM.mbind, MayaM.hostCall, MayaM.pureM, h,
        ih, List.enumFrom, labPoint]

/-- Helper: the full run of `RGB_identity_cube` when the host accepts every
call: the value returned by the final `rename`, and the complete ordered
call trace. -/
theorem RGB_identity_cube_run (host : Host E D) (name : String)
    (density : ℕ) (cubeList : List String) (cube : String)
    (shapes : List String) (shape : String) (path : D)
    (pts : List (ℚ × ℚ × ℚ)) (newName : String)
    (h1 : host.polyCube 1 1 1 density density density false
      = Except.ok cubeList)
    (h2 : cubeList[0]? = some cube)
    (h3 : ∀ a v, host.setAttr a v = Except.ok ())
    (h4 : host.listRelatives cube false true true = Except.ok (some shapes))
    (h5 : shapes[0]? = some shape)
    (h6 : host.getDagPath [shape] 0 = Except.ok path)
    (h7 : host.getPoints path MSpace.kWorld = Except.ok pts)
    (h8 : host.setVertexColors path (buildVertexArrays pts).1
      (buildVertexArrays pts).2 = Except.ok ())
    (h9 : host.makeIdentity cube true true true true = Except.ok ())
    (h10 : host.xformPivots cube (0, 0, 0) (0, 0, 0) = Except.ok ())
    (h11 : host.rename cube name = Except.ok newName) :
    RGB_identity_cube host name density
      = ([MayaCall.polyCube 1 1 1 density density density false,
          MayaCall.setAttr (cube ++ ".translateX") (AttrValue.num (1/2)),
          MayaCall.setAttr (cube ++ ".translateY") (AttrValue.num (1/2)),
          MayaCall.setAttr (cube ++ ".translateZ") (AttrValue.num (1/2)),
          MayaCall.setAttr (cube ++ ".displayColors") (AttrValue.bool true),
          MayaCall.listRelatives cube false true true,
          MayaCall.getDagPath [shape] 0,
          MayaCall.getPoints path MSpace.kWorld,
          MayaCall.setVertexColors path (buildVertexArrays pts).1
            (buildVertexArrays pts).2,
          MayaCall.makeIdentity cube true true true true,
          MayaCall.xformPivots cube (0, 0, 0) (0, 0, 0),
          MayaCall.rename cube name],
         Except.ok newName) := by
  have hset := set_attributes_ok host
    [(cube ++ ".translateX", AttrValue.num (1/2)),
     (cube ++ ".translateY", AttrValue.num (1/2)),
     (cube ++ ".translateZ", AttrValue.num (1/2))]
    (fun p _ => h3 p.1 p.2)
  simp only [one_div] at hset
  simp only [Prod.mk_zero_zero] at h10
  simp [RGB_identity_cube, get_shapes, get_dag_path, MayaM.bind_def,
    MayaM.mbind, MayaM.hostCall, MayaM.pureM, MayaM.pyIndex, hset,
    h1, h2, h3, h4, h5, h6, h7, h8, h9, h10, h11]

/-- Helper: the full run of `Lab_colourspace_cube` when the host accepts
every call: the trace of the inner `RGB_identity_cube` call followed by the
DAG-path lookup, the vertex-iterator traversal, one `setPosition` per
vertex, the two rotation `setAttr`s and the transform freeze; the returned
value is the inner call's. -/
theorem Lab_colourspace_cube_run (host : Host E D)
    (lib : ColourScience ℚ V W M F I) (cs : RGB_Colourspace W M F)
    (density : ℕ) (cubeList : List String) (cube : String)
    (shapes : List String) (shape : String) (path : D)
    (pts : List (ℚ × ℚ × ℚ)) (newName : String) (path₂ : D)
    (positions : List (ℚ × ℚ × ℚ))
    (h1 : host.polyCube 1 1 1 density density density false
      = Except.ok cubeList)
    (h2 : cubeList[0]? = some cube)
    (h3 : ∀ a v, host.setAttr a v = Except.ok ())
    (h4 : host.listRelatives cube false true true = Except.ok (some shapes))
    (h5 : shapes[0]? = some shape)
    (h6 : host.getDagPath [shape] 0 = Except.ok path)
    (h7 : host.getPoints path MSpace.kWorld = Except.ok pts)
    (h8 : host.setVertexColors path (buildVertexArrays pts).1
      (buildVertexArrays pts).2 = Except.ok ())
    (h9 : host.makeIdentity cube true true true true = Except.ok ())
    (h10 : host.xformPivots cube (0, 0, 0) (0, 0, 0) = Except.ok ())
    (h11 : host.rename cube cs.name = Except.ok newName)
    (h12 : host.getDagPath [newName] 0 = Except.ok path₂)
    (h13 : host.itVertexPositions path₂ MSpace.kObject
      = Except.ok positions)
    (h14 : ∀ j p, host.setVertexPosition path₂ j p = Except.ok ())
    (h15 : host.makeIdentity newName true true true true = Except.ok ()) :
    Lab_colourspace_cube host lib cs density
      = ((RGB_identity_cube host cs.name density).1
          ++ MayaCall.getDagPath [newName] 0
          :: MayaCall.itVertexPositions path₂ MSpace.kObject
          :: (((List.enumFrom 0 positions).map (fun pr =>
                MayaCall.setVertexPosition path₂ pr.1 (labPoint lib cs pr.2)))
             ++ [MayaCall.setAttr (newName ++ ".rotateX") (AttrValue.num 180),
                 MayaCall.setAttr (newName ++ ".rotateZ") (AttrValue.num 90),
                 MayaCall.makeIdentity newName true true true true]),
         Except.ok newName) := by
  have hRIC := RGB_identity_cube_run host cs.name density cubeList cube
    shapes shape path pts newName h1 h2 h3 h4 h5 h6 h7 h8 h9 h10 h11
  have hloop := vertexDeformLoop_ok host lib cs path₂ positions 0 h14
  have hrot := set_attributes_ok host
    [(newName ++ ".rotateX", AttrValue.num 180),
     (newName ++ ".rotateZ", AttrValue.num 90)]
    (fun p _ => h3 p.1 p.2)
  simp [Lab_colourspace_cube, get_dag_path, MayaM.bind_def, MayaM.mbind,
    MayaM.hostCall, MayaM.pureM, hRIC, hloop, hrot, h12, h13, h15]

/-- C7: `Lab_colourspace_cube(colourspace, density)` obtains its cube by
calling `RGB_identity_cube(colourspace.name, density)` — that call's trace
opens its own trace and the node name it returns is exactly the one
`RGB_identity_cube` returned — and `RGB_identity_cube` in turn calls
`set_attributes`, `get_shapes` and `get_dag_path`, witnessed by the
`setAttr`, `listRelatives` and `getDagPath` calls those helpers issue
inside its trace. -/
theorem Lab_colourspace_cube_uses_RGB_identity_cube (host : Host E D)
    (lib : ColourScience ℚ V W M F I) (cs : RGB_Colourspace W M F)
    (density : ℕ) (cubeList : List String) (cube : String)
    (shapes : List String) (shape : String) (path : D)
    (pts : List (ℚ × ℚ × ℚ)) (newName : String) (path₂ : D)
    (positions : List (ℚ × ℚ × ℚ))
    (h1 : host.polyCube 1 1 1 density density density false
      = Except.ok cubeList)
    (h2 : cubeList[0]? = some cube)
    (h3 : ∀ a v, host.setAttr a v = Except.ok ())
    (h4 : host.listRelatives cube false true true = Except.ok (some shapes))
    (h5 : shapes[0]? = some shape)
    (h6 : host.getDagPath [shape] 0 = Except.ok path)
    (h7 : host.getPoints path MSpace.kWorld = Except.ok pts)
    (h8 : host.setVertexColors path (buildVertexArrays pts).1
      (buildVertexArrays pts).2 = Except.ok ())
    (h9 : host.makeIdentity cube true true true true = Except.ok ())
    (h10 : host.xformPivots cube (0, 0, 0) (0, 0, 0) = Except.ok ())
    (h11 : host.rename cube cs.name = Except.ok newName)
    (h12 : host.getDagPath [newName] 0 = Except.ok path₂)
    (h13 : host.itVertexPositions path₂ MSpace.kObject
      = Except.ok positions)
    (h14 : ∀ j p, host.setVertexPosition path₂ j p = Except.ok ())
    (h15 : host.makeIdentity newName true true true true = Except.ok ()) :
    (Lab_colourspace_cube host lib cs density).2
        = (RGB_identity_cube host cs.name density).2
    ∧ (∃ tail, (Lab_colourspace_cube host lib cs density).1
        = (RGB_identity_cube host cs.name density).1 ++ tail)
    ∧ (RGB_identity_cube host cs.name density).2 = Except.ok newName
    ∧ MayaCall.setAttr (cube ++ ".translateX") (AttrValue.num (1/2))
        ∈ (RGB_identity_cube host cs.name density).1
    ∧ MayaCall.listRelatives cube false true true
        ∈ (RGB_identity_cube host cs.name density).1
    ∧ MayaCall.getDagPath [shape] 0
        ∈ (RGB_identity_cube host cs.name density).1 := by
  have hRIC := RGB_identity_cube_run host cs.name density cubeList cube
    shapes shape path pts newName h1 h2 h3 h4 h5 h6 h7 h8 h9 h10 h11
  have hrun := Lab_colourspace_cube_run host lib cs density cubeList cube
    shapes shape path pts newName path₂ positions
    h1 h2 h3 h4 h5 h6 h7 h8 h9 h10 h11 h12 h13 h14 h15
  refine ⟨by simp [hrun, hRIC],
    ⟨MayaCall.getDagPath [newName] 0
      :: MayaCall.itVertexPositions path₂ MSpace.kObject
      :: (((List.enumFrom 0 positions).map (fun pr =>
            MayaCall.setVertexPosition path₂ pr.1 (labPoint lib cs pr.2)))
         ++ [MayaCall.setAttr (newName ++ ".rotateX") (AttrValue.num 180),
             MayaCall.setAttr (newName ++ ".rotateZ") (AttrValue.num 90),
             MayaCall.makeIdentity newName true true true true]),
      by simp [hrun]⟩,
    by simp [hRIC], by simp [hRIC], by simp [hRIC], by simp [hRIC]⟩

/-- Witness for C7, on the all-succeeding host, the concrete library model
and the concrete colourspace (named `"sRGB"`), with density 1. -/
theorem Lab_colourspace_cube_uses_RGB_identity_cube_witness :
    (Lab_colourspace_cube okHost testLib testColourspace 1).2
        = (RGB_identity_cube okHost testColourspace.name 1).2
    ∧ (∃ tail, (Lab_colourspace_cube okHost testLib testColourspace 1).1
        = (RGB_identity_cube okHost testColourspace.name 1).1 ++ tail)
    ∧ (RGB_identity_cube okHost testColourspace.name 1).2
        = Except.ok "sRGB"
    ∧ MayaCall.setAttr ("pCube1" ++ ".translateX") (AttrValue.num (1/2))
        ∈ (RGB_identity_cube okHost testColourspace.name 1).1
    ∧ MayaCall.listRelatives "pCube1" false true true
        ∈ (RGB_identity_cube okHost testColourspace.name 1).1
    ∧ MayaCall.getDagPath ["pCube1Shape"] 0
        ∈ (RGB_identity_cube okHost testColourspace.name 1).1 :=
  Lab_colourspace_cube_uses_RGB_identity_cube okHost testLib testColourspace
    1 ["pCube1"] "pCube1" ["pCube1Shape"] "pCube1Shape" "pCube1Shape"
    [(0, 0, 0), (1, 1/2, 1)] "sRGB" "sRGB" [(0, 0, 0), (1, 0, 0)]
    rfl rfl (fun _ _ => rfl) rfl rfl rfl rfl rfl rfl rfl rfl rfl rfl
    (fun _ _ => rfl) rfl

/-- C8: `Lab_colourspace_cube` deforms the RGB identity cube vertex by
vertex: its run is the inner `RGB_identity_cube` call followed by the
DAG-path lookup and the vertex-iterator traversal, then — for the vertex at
iterator index `i` with prior object-space position `p` — exactly one
`setPosition` call writing `get_mpoint` of the flattened (`np.ravel`, then
`tuple`) result of `RGB_to_Lab` at `p`'s three coordinates, each vertex
exactly once in iterator order; afterwards the cube is rotated 180° about X
and 90° about Z and its transform is frozen (`makeIdentity`). -/
theorem Lab_colourspace_cube_deforms_each_vertex (host : Host E D)
    (lib : ColourScience ℚ V W M F I) (cs : RGB_Colourspace W M F)
    (density : ℕ) (cubeList : List String) (cube : String)
    (shapes : List String) (shape : String) (path : D)
    (pts : List (ℚ × ℚ × ℚ)) (newName : String) (path₂ : D)
    (positions : List (ℚ × ℚ × ℚ))
    (h1 : host.polyCube 1 1 1 density density density false
      = Except.ok cubeList)
    (h2 : cubeList[0]? = some cube)
    (h3 : ∀ a v, host.setAttr a v = Except.ok ())
    (h4 : host.listRelatives cube false true true = Except.ok (some shapes))
    (h5 : shapes[0]? = some shape)
    (h6 : host.getDagPath [shape] 0 = Except.ok path)
    (h7 : host.getPoints path MSpace.kWorld = Except.ok pts)
    (h8 : host.setVertexColors path (buildVertexArrays pts).1
      (buildVertexArrays pts).2 = Except.ok ())
    (h9 : host.makeIdentity cube true true true true = Except.ok ())
    (h10 : host.xformPivots cube (0, 0, 0) (0, 0, 0) = Except.ok ())
    (h11 : host.rename cube cs.name = Except.ok newName)
    (h12 : host.getDagPath [newName] 0 = Except.ok path₂)
    (h13 : host.itVertexPositions path₂ MSpace.kObject
      = Except.ok positions)
    (h14 : ∀ j p, host.setVertexPosition path₂ j p = Except.ok ())
    (h15 : host.makeIdentity newName true true true true = Except.ok ()) :
    Lab_colourspace_cube host lib cs density
      = ((RGB_identity_cube host cs.name density).1
          ++ MayaCall.getDagPath [newName] 0
          :: MayaCall.itVertexPositions path₂ MSpace.kObject
          :: ((positions.enum.map (fun pr =>
                MayaCall.setVertexPosition path₂ pr.1
                  (get_mpoint (lib.toTriple (lib.np_ravel (RGB_to_Lab lib
                    (pr.2.1, pr.2.2.1, pr.2.2.2) cs))))))
             ++ [MayaCall.setAttr (newName ++ ".rotateX") (AttrValue.num 180),
                 MayaCall.setAttr (newName ++ ".rotateZ") (AttrValue.num 90),
                 MayaCall.makeIdentity newName true true true true]),
         Except.ok newName) := by
  have hrun := Lab_colourspace_cube_run host lib cs density cubeList cube
    shapes shape path pts newName path₂ positions
    h1 h2 h3 h4 h5 h6 h7 h8 h9 h10 h11 h12 h13 h14 h15
  simpa [labPoint, List.enum] using hrun

/-- Witness for C8 at the concrete host, library and colourspace, with
density 1 and the two iterator positions `(0,0,0)` and `(1,0,0)`. -/
theorem Lab_colourspace_cube_deforms_each_vertex_witness :
    Lab_colourspace_cube okHost testLib testColourspace 1
      = ((RGB_identity_cube okHost testColourspace.name 1).1
          ++ MayaCall.getDagPath ["sRGB"] 0
          :: MayaCall.itVertexPositions "sRGB" MSpace.kObject
          :: ((List.enum
                [((0 : ℚ), (0 : ℚ), (0 : ℚ)), ((1 : ℚ), (0 : ℚ), (0 : ℚ))]
               |>.map (fun pr =>
                MayaCall.setVertexPosition "sRGB" pr.1
                  (get_mpoint (testLib.toTriple (testLib.np_ravel
                    (RGB_to_Lab testLib (pr.2.1, pr.2.2.1, pr.2.2.2)
                      testColourspace))))))
             ++ [MayaCall.setAttr ("sRGB" ++ ".rotateX") (AttrValue.num 180),
                 MayaCall.setAttr ("sRGB" ++ ".rotateZ") (AttrValue.num 90),
                 MayaCall.makeIdentity "sRGB" true true true true]),
         Except.ok "sRGB") :=
  Lab_colourspace_cube_deforms_each_vertex okHost testLib testColourspace
    1 ["pCube1"] "pCube1" ["pCube1Shape"] "pCube1Shape" "pCube1Shape"
    [(0, 0, 0), (1, 1/2, 1)] "sRGB" "sRGB" [(0, 0, 0), (1, 0, 0)]
    rfl rfl (fun _ _ => rfl) rfl rfl rfl rfl rfl rfl rfl rfl rfl rfl
    (fun _ _ => rfl) rfl

/-- C9: in `RGB_identity_cube`, the vertex colours make the cube an
identity map from position to colour: the colour array built by the loop
equals the world-space point array (entry `i` has components equal to the
x, y, z coordinates of vertex `i`), the index array is exactly
`0, 1, …, n-1` for `n` the mesh's point count, and the mesh receives
exactly that assignment through the `setVertexColors` call. -/
theorem RGB_identity_cube_identity_colours (host : Host E D) (name : String)
    (density : ℕ) (cubeList : List String) (cube : String)
    (shapes : List String) (shape : String) (path : D)
    (pts : List (ℚ × ℚ × ℚ)) (newName : String)
    (h1 : host.polyCube 1 1 1 density density density false
      = Except.ok cubeList)
    (h2 : cubeList[0]? = some cube)
    (h3 : ∀ a v, host.setAttr a v = Except.ok ())
    (h4 : host.listRelatives cube false true true = Except.ok (some shapes))
    (h5 : shapes[0]? = some shape)
    (h6 : host.getDagPath [shape] 0 = Except.ok path)
    (h7 : host.getPoints path MSpace.kWorld = Except.ok pts)
    (h8 : host.setVertexColors path (buildVertexArrays pts).1
      (buildVertexArrays pts).2 = Except.ok ())
    (h9 : host.makeIdentity cube true true true true = Except.ok ())
    (h10 : host.xformPivots cube (0, 0, 0) (0, 0, 0) = Except.ok ())
    (h11 : host.rename cube name = Except.ok newName) :
    buildVertexArrays pts = (pts, List.range pts.length)
    ∧ (∀ i, i < pts.length → (buildVertexArrays pts).1[i]? = pts[i]?)
    ∧ MayaCall.setVertexColors path pts (List.range pts.length)
        ∈ (RGB_identity_cube host name density).1 := by
  have hRIC := RGB_identity_cube_run host name density cubeList cube
    shapes shape path pts newName h1 h2 h3 h4 h5 h6 h7 h8 h9 h10 h11
  refine ⟨buildVertexArrays_eq pts,
    fun i _ => by rw [buildVertexArrays_eq],
    by simp [hRIC, buildVertexArrays_eq]⟩

/-- Witness for C9 on the all-succeeding host, whose mesh has the two
world-space points `(0,0,0)` and `(1,1/2,1)`. -/
theorem RGB_identity_cube_identity_colours_witness :
    buildVertexArrays [((0 : ℚ), (0 : ℚ), (0 : ℚ)), (1, 1/2, 1)]
        = ([((0 : ℚ), (0 : ℚ), (0 : ℚ)), (1, 1/2, 1)], List.range 2)
    ∧ (∀ i, i < ([((0 : ℚ), (0 : ℚ), (0 : ℚ)), (1, 1/2, 1)] :
          List (ℚ × ℚ × ℚ)).length →
        (buildVertexArrays [((0 : ℚ), (0 : ℚ), (0 : ℚ)), (1, 1/2, 1)]).1[i]?
          = [((0 : ℚ), (0 : ℚ), (0 : ℚ)), (1, 1/2, 1)][i]?)
    ∧ MayaCall.setVertexColors "pCube1Shape"
        [((0 : ℚ), (0 : ℚ), (0 : ℚ)), (1, 1/2, 1)] (List.range 2)
        ∈ (RGB_identity_cube okHost "cube" 1).1 := by
  have h := RGB_identity_cube_identity_colours okHost "cube" 1 ["pCube1"]
    "pCube1" ["pCube1Shape"] "pCube1Shape" "pCube1Shape"
    [(0, 0, 0), (1, 1/2, 1)] "cube"
    rfl rfl (fun _ _ => rfl) rfl rfl rfl rfl rfl rfl rfl rfl
  simpa using h

end ColourMaya
